import Mathlib

/-!
Verification of clean_history.py, a script that rewrites git history with
git-filter-repo after creating a backup branch, and force-pushes the result.

The script is embedded shallowly. The outside world is a function from
command strings to raw subprocess outcomes, together with a view of the
current working directory. The script itself becomes a pure function from
that world to an exit status and an ordered trace of observable events
(lines printed and commands executed).
-/

/-- Raw outcome of launching a subprocess: either it completed with an
exit code and captured output streams, or launching it raised an
exception with a message. -/
inductive RawOutcome where
  | completed (returncode : Int) (stdout : String) (stderr : String)
  | exception (msg : String)
deriving DecidableEq

/-- What a path name resolves to in the current working directory. -/
inductive FsEntry where
  | file
  | dir
  | absent
deriving DecidableEq

/-- Observable events of a run, in program order: a line printed, or a
command executed together with the success flag its runner reported. -/
inductive Event where
  | print (s : String)
  | exec (cmd : String) (ok : Bool)
deriving DecidableEq

/-- The world a run takes place in: the filesystem view of the current
directory and the behaviour of every shell command. -/
structure World where
  fs : String → FsEntry
  env : String → RawOutcome

/-- run_command (clean_history.py lines 6-12): run a command and return
the triple (returncode == 0, stdout, stderr); an exception while
launching the subprocess becomes (False, "", str(e)). -/
def run_command (env : String → RawOutcome) (cmd : String) :
    Bool × String × String :=
  match env cmd with
  | RawOutcome.completed rc out err => (rc == 0, out, err)
  | RawOutcome.exception e => (false, "", e)

/-- The backup branch creation command (line 19). -/
def backupCmd : String := "git branch backup-before-cleanup"

/-- filter_cmd (lines 27-32): the git-filter-repo argument list. -/
def filter_cmd : List String :=
  ["git-filter-repo", "--path backend/.env", "--invert-paths", "--force"]

/-- The rewrite command actually run: filter_cmd joined by spaces
(line 35). -/
def filterCmd : String := String.intercalate " " filter_cmd

/-- The force-push command (line 42). -/
def pushCmd : String := "git push origin main --force"

/-- The probe for the git-filter-repo tool (line 63). -/
def whichCmd : String := "which git-filter-repo"

/-- Events of clean_git_history up to and including the backup-branch
step (lines 16-23): the opening print, the backup command run, and the
success or warning line depending on its result. -/
def backupTrace (env : String → RawOutcome) : List Event :=
  [Event.print "Cleaning git history to remove secrets...",
   Event.exec backupCmd (run_command env backupCmd).1,
   if (run_command env backupCmd).1 then
     Event.print "✓ Created backup branch: backup-before-cleanup"
   else
     Event.print "⚠ Warning: Could not create backup branch",
   Event.print "Running git-filter-repo to remove .env files from history..."]

/-- clean_git_history (lines 14-54): create the backup branch (warn on
failure), run git-filter-repo, and on its success force-push; returns
True only when both the rewrite and the push succeed, paired with the
trace of the run. -/
def clean_git_history (env : String → RawOutcome) : Bool × List Event :=
  if (run_command env filterCmd).1 then
    if (run_command env pushCmd).1 then
      (true,
       backupTrace env ++
        [Event.exec filterCmd true,
         Event.print "✓ Successfully cleaned git history",
         Event.print "Force pushing to remote...",
         Event.exec pushCmd true,
         Event.print "✓ Successfully pushed cleaned history to remote"])
    else
      (false,
       backupTrace env ++
        [Event.exec filterCmd true,
         Event.print "✓ Successfully cleaned git history",
         Event.print "Force pushing to remote...",
         Event.exec pushCmd false,
         Event.print "✗ Failed to push to remote:",
         Event.print (run_command env pushCmd).2.2])
  else
    (false,
     backupTrace env ++
      [Event.exec filterCmd false,
       Event.print "✗ Failed to clean git history:",
       Event.print (run_command env filterCmd).2.2])

/-- The __main__ block (lines 56-75): check for a .git entry in the
current directory, probe for git-filter-repo, run the cleanup, and turn
its boolean result into the exit status; returns (exit status, trace). -/
def main_run (w : World) : Nat × List Event :=
  if w.fs ".git" = FsEntry.absent then
    (1, [Event.print "Error: Not in a git repository"])
  else if (run_command w.env whichCmd).1 then
    if (clean_git_history w.env).1 then
      (0,
       Event.exec whichCmd true ::
        (clean_git_history w.env).2 ++
        [Event.print "\n🎉 Git history cleaned successfully!",
         Event.print "If you need to restore, use: git checkout backup-before-cleanup"])
    else
      (1,
       Event.exec whichCmd true ::
        (clean_git_history w.env).2 ++
        [Event.print "\n❌ Failed to clean git history"])
  else
    (1,
     [Event.exec whichCmd false,
      Event.print "Error: git-filter-repo not found. Please install it first.",
      Event.print "You can install it with: pip3 install git-filter-repo"])

/-- The command string an event carries, if it is a command execution. -/
def Event.cmdOf : Event → Option String
  | Event.print _ => none
  | Event.exec c _ => some c

/-- The commands executed in a trace, in order. -/
def execsOf (tr : List Event) : List String := tr.filterMap Event.cmdOf

/- Concrete worlds used as witnesses and counterexamples. -/

/-- A current directory holding a .git directory. -/
def gitDirFs : String → FsEntry :=
  fun p => if p = ".git" then FsEntry.dir else FsEntry.absent

/-- A current directory holding a plain file named .git. -/
def gitFileFs : String → FsEntry :=
  fun p => if p = ".git" then FsEntry.file else FsEntry.absent

/-- A current directory with no .git entry at all. -/
def noGitFs : String → FsEntry := fun _ => FsEntry.absent

/-- Every command succeeds with empty output. -/
def envAllOk : String → RawOutcome := fun _ => RawOutcome.completed 0 "" ""

/-- Only the backup branch creation fails. -/
def envBackupFails : String → RawOutcome :=
  fun c => if c = backupCmd then RawOutcome.completed 1 "" ""
           else RawOutcome.completed 0 "" ""

/-- Only the git-filter-repo rewrite fails. -/
def envFilterFails : String → RawOutcome :=
  fun c => if c = filterCmd then RawOutcome.completed 1 "" "rewrite died"
           else RawOutcome.completed 0 "" ""

/-- Only the force-push fails, with diagnostic text on stderr. -/
def envPushFails : String → RawOutcome :=
  fun c => if c = pushCmd then RawOutcome.completed 1 "" "remote rejected"
           else RawOutcome.completed 0 "" ""

/-- The tool probe fails; everything else would succeed. -/
def envWhichFails : String → RawOutcome :=
  fun c => if c = whichCmd then RawOutcome.completed 1 "" ""
           else RawOutcome.completed 0 "" ""

/-- Launching any subprocess raises an exception. -/
def envBoom : String → RawOutcome := fun _ => RawOutcome.exception "boom"

def allOkWorld : World := ⟨gitDirFs, envAllOk⟩

def backupFailWorld : World := ⟨gitDirFs, envBackupFails⟩

def filterFailWorld : World := ⟨gitDirFs, envFilterFails⟩

def pushFailWorld : World := ⟨gitDirFs, envPushFails⟩

def whichFailWorld : World := ⟨gitDirFs, envWhichFails⟩

def noGitWorld : World := ⟨noGitFs, envAllOk⟩

def gitFileWorld : World := ⟨gitFileFs, envAllOk⟩

/- Helper lemmas about traces. -/

@[simp]
theorem execsOf_nil : execsOf [] = [] := rfl

@[simp]
theorem execsOf_cons_print (s : String) (tr : List Event) :
    execsOf (Event.print s :: tr) = execsOf tr := by
  simp [execsOf, Event.cmdOf]

@[simp]
theorem execsOf_cons_exec (c : String) (b : Bool) (tr : List Event) :
    execsOf (Event.exec c b :: tr) = c :: execsOf tr := by
  simp [execsOf, Event.cmdOf]

@[simp]
theorem execsOf_append (a b : List Event) :
    execsOf (a ++ b) = execsOf a ++ execsOf b := by
  simp [execsOf]

@[simp]
theorem execsOf_backupTrace (env : String → RawOutcome) :
    execsOf (backupTrace env) = [backupCmd] := by
  cases h : (run_command env backupCmd).1 <;>
    simp [backupTrace, h]

theorem clean_execs_of_true (env : String → RawOutcome)
    (h : (clean_git_history env).1 = true) :
    execsOf (clean_git_history env).2 = [backupCmd, filterCmd, pushCmd] := by
  unfold clean_git_history at h ⊢
  cases hf : (run_command env filterCmd).1
  · simp [hf] at h
  · cases hp : (run_command env pushCmd).1
    · simp [hf, hp] at h
    · simp [hf, hp]

theorem clean_execs_of_filter_fail (env : String → RawOutcome)
    (h : (run_command env filterCmd).1 = false) :
    execsOf (clean_git_history env).2 = [backupCmd, filterCmd] := by
  unfold clean_git_history
  simp [h]

theorem clean_result_false_of_filter_fail (env : String → RawOutcome)
    (h : (run_command env filterCmd).1 = false) :
    (clean_git_history env).1 = false := by
  unfold clean_git_history
  simp [h]

/- Claim theorems. -/

/-- C1 counterexample: a run in which the backup branch creation command
fails (exit code 1) while every other command succeeds still terminates
with overall exit status 0, and its trace contains no successful
execution of the backup command; so a successful run does not imply the
backup creation succeeded. -/
theorem exit_zero_without_backup_success :
    (main_run backupFailWorld).1 = 0 ∧
    Event.exec backupCmd true ∉ (main_run backupFailWorld).2 := by
  decide

/-- C1 (amended): in every run that terminates with overall exit status
0, the executed commands are exactly the tool probe, the backup branch
creation, the git-filter-repo rewrite, and the force-push, in that
order; in particular the backup creation command is executed before the
rewrite is attempted, though it need not have succeeded. -/
theorem exit_zero_commands_in_order (w : World)
    (h : (main_run w).1 = 0) :
    execsOf (main_run w).2 = [whichCmd, backupCmd, filterCmd, pushCmd] := by
  unfold main_run at h ⊢
  by_cases hg : w.fs ".git" = FsEntry.absent
  · simp [hg] at h
  · by_cases hw : (run_command w.env whichCmd).1 = true
    · by_cases hc : (clean_git_history w.env).1 = true
      · simp [hg, hw, hc, clean_execs_of_true w.env hc]
      · simp [hg, hw, hc] at h
    · simp [hg, hw] at h

/-- C1 witness: a concrete all-successful run realises the amended
claim. -/
theorem exit_zero_commands_in_order_witness :
    execsOf (main_run allOkWorld).2 = [whichCmd, backupCmd, filterCmd, pushCmd] :=
  exit_zero_commands_in_order allOkWorld (by decide)

/-- C2: in every run in which the git-filter-repo rewrite command
reports failure, the force-push command is never executed. -/
theorem rewrite_failure_blocks_push (w : World)
    (h : (run_command w.env filterCmd).1 = false) :
    pushCmd ∉ execsOf (main_run w).2 := by
  unfold main_run
  by_cases hg : w.fs ".git" = FsEntry.absent
  · simp [hg]
  · by_cases hw : (run_command w.env whichCmd).1 = true
    · have hc := clean_result_false_of_filter_fail w.env h
      have he := clean_execs_of_filter_fail w.env h
      simp [hg, hw, hc, he]
      decide
    · simp [hg, hw]
      decide

/-- C2 witness: a concrete run with a failing rewrite never executes the
push command. -/
theorem rewrite_failure_blocks_push_witness :
    pushCmd ∉ execsOf (main_run filterFailWorld).2 :=
  rewrite_failure_blocks_push filterFailWorld (by decide)

/-- C3: every run started in a directory without a .git entry exits with
status 1, prints only the not-a-git-repository message, and executes no
command at all (in particular none of backup, rewrite, or push). -/
theorem no_git_repo_exits_one (w : World)
    (h : w.fs ".git" = FsEntry.absent) :
    main_run w = (1, [Event.print "Error: Not in a git repository"]) ∧
    execsOf (main_run w).2 = [] := by
  have hm : main_run w = (1, [Event.print "Error: Not in a git repository"]) := by
    unfold main_run
    simp [h]
  exact ⟨hm, by simp [hm]⟩

/-- C3 witness: a concrete run outside a git repository. -/
theorem no_git_repo_exits_one_witness :
    main_run noGitWorld = (1, [Event.print "Error: Not in a git repository"]) ∧
    execsOf (main_run noGitWorld).2 = [] :=
  no_git_repo_exits_one noGitWorld (by decide)

/-- C4: every run in a git repository in which the which probe for
git-filter-repo fails exits with status 1, prints the installation hint,
and executes only the probe itself (no backup, rewrite, or push). -/
theorem missing_tool_exits_one (w : World)
    (hg : w.fs ".git" ≠ FsEntry.absent)
    (h : (run_command w.env whichCmd).1 = false) :
    main_run w = (1,
      [Event.exec whichCmd false,
       Event.print "Error: git-filter-repo not found. Please install it first.",
       Event.print "You can install it with: pip3 install git-filter-repo"]) ∧
    execsOf (main_run w).2 = [whichCmd] := by
  have hm : main_run w = (1,
      [Event.exec whichCmd false,
       Event.print "Error: git-filter-repo not found. Please install it first.",
       Event.print "You can install it with: pip3 install git-filter-repo"]) := by
    unfold main_run
    simp [hg, h]
  exact ⟨hm, by simp [hm]⟩

/-- C4 witness: a concrete run with the tool missing. -/
theorem missing_tool_exits_one_witness :
    main_run whichFailWorld = (1,
      [Event.exec whichCmd false,
       Event.print "Error: git-filter-repo not found. Please install it first.",
       Event.print "You can install it with: pip3 install git-filter-repo"]) ∧
    execsOf (main_run whichFailWorld).2 = [whichCmd] :=
  missing_tool_exits_one whichFailWorld (by decide) (by decide)

/-- C5: in every run in which the rewrite succeeds but the force-push
fails, the process exits with status 1 and the captured standard-error
text of the push command is printed. -/
theorem push_failure_exits_one_with_push_stderr (w : World)
    (hg : w.fs ".git" ≠ FsEntry.absent)
    (hw : (run_command w.env whichCmd).1 = true)
    (hf : (run_command w.env filterCmd).1 = true)
    (hp : (run_command w.env pushCmd).1 = false) :
    (main_run w).1 = 1 ∧
    Event.print (run_command w.env pushCmd).2.2 ∈ (main_run w).2 := by
  have hc : (clean_git_history w.env).1 = false := by
    unfold clean_git_history
    simp [hf, hp]
  have htr : Event.print (run_command w.env pushCmd).2.2 ∈
      (clean_git_history w.env).2 := by
    unfold clean_git_history
    simp [hf, hp]
  constructor
  · unfold main_run
    simp [hg, hw, hc]
  · unfold main_run
    simp [hg, hw, hc, htr]

/-- C5 witness: a concrete run whose push fails with stderr text. -/
theorem push_failure_exits_one_with_push_stderr_witness :
    (main_run pushFailWorld).1 = 1 ∧
    Event.print (run_command pushFailWorld.env pushCmd).2.2 ∈
      (main_run pushFailWorld).2 :=
  push_failure_exits_one_with_push_stderr pushFailWorld
    (by decide) (by decide) (by decide) (by decide)

/-- C6: in every run in which both the rewrite and the push succeed, the
process exits with status 0 and the output contains both the success
celebration line and the restore instruction naming the backup branch. -/
theorem full_success_exit_zero_and_lines (w : World)
    (hg : w.fs ".git" ≠ FsEntry.absent)
    (hw : (run_command w.env whichCmd).1 = true)
    (hf : (run_command w.env filterCmd).1 = true)
    (hp : (run_command w.env pushCmd).1 = true) :
    (main_run w).1 = 0 ∧
    Event.print "\n🎉 Git history cleaned successfully!" ∈ (main_run w).2 ∧
    Event.print "If you need to restore, use: git checkout backup-before-cleanup" ∈
      (main_run w).2 := by
  have hc : (clean_git_history w.env).1 = true := by
    unfold clean_git_history
    simp [hf, hp]
  refine ⟨?_, ?_, ?_⟩ <;>
    · unfold main_run
      simp [hg, hw, hc]

/-- C6 witness: a concrete all-successful run. -/
theorem full_success_exit_zero_and_lines_witness :
    (main_run allOkWorld).1 = 0 ∧
    Event.print "\n🎉 Git history cleaned successfully!" ∈ (main_run allOkWorld).2 ∧
    Event.print "If you need to restore, use: git checkout backup-before-cleanup" ∈
      (main_run allOkWorld).2 :=
  full_success_exit_zero_and_lines allOkWorld
    (by decide) (by decide) (by decide) (by decide)

/-- C7: whenever the backup branch creation command fails, the warning
line is printed, the rewrite is still attempted, and the return value of
clean_git_history is exactly the conjunction of the rewrite and push
results, so a backup failure never by itself causes a failure exit. -/
theorem backup_failure_warns_and_proceeds (env : String → RawOutcome)
    (h : (run_command env backupCmd).1 = false) :
    Event.print "⚠ Warning: Could not create backup branch" ∈
      (clean_git_history env).2 ∧
    filterCmd ∈ execsOf (clean_git_history env).2 ∧
    (clean_git_history env).1 =
      ((run_command env filterCmd).1 && (run_command env pushCmd).1) := by
  have hb : Event.print "⚠ Warning: Could not create backup branch" ∈
      backupTrace env := by
    simp [backupTrace, h]
  refine ⟨?_, ?_, ?_⟩
  · unfold clean_git_history
    cases hf : (run_command env filterCmd).1 <;>
      [skip; cases hp : (run_command env pushCmd).1] <;>
      simp [hb]
  · unfold clean_git_history
    cases hf : (run_command env filterCmd).1 <;>
      [skip; cases hp : (run_command env pushCmd).1] <;>
      simp
  · unfold clean_git_history
    cases hf : (run_command env filterCmd).1
    · simp [hf]
    · cases hp : (run_command env pushCmd).1 <;> simp [hf, hp]

/-- C7 witness: a concrete run whose backup creation fails. -/
theorem backup_failure_warns_and_proceeds_witness :
    Event.print "⚠ Warning: Could not create backup branch" ∈
      (clean_git_history envBackupFails).2 ∧
    filterCmd ∈ execsOf (clean_git_history envBackupFails).2 ∧
    (clean_git_history envBackupFails).1 =
      ((run_command envBackupFails filterCmd).1 &&
        (run_command envBackupFails pushCmd).1) :=
  backup_failure_warns_and_proceeds envBackupFails (by decide)

/-- C8: run_command is a total function into result triples, so no
outcome escapes as an exception to the caller; its success flag is true
exactly when the command completed with exit status 0, and an exception
while launching becomes the triple (false, empty output, message). -/
theorem run_command_total_and_flag (env : String → RawOutcome) (cmd : String) :
    ((run_command env cmd).1 = true ↔
      ∃ out err, env cmd = RawOutcome.completed 0 out err) ∧
    (∀ e, env cmd = RawOutcome.exception e →
      run_command env cmd = (false, "", e)) := by
  constructor
  · cases h : env cmd with
    | completed rc out err =>
        simp [run_command, h]
    | exception e => simp [run_command, h]
  · intro e he
    simp [run_command, he]

/-- C8 witness: a command whose launch raises is reported as a failure
triple carrying the exception message. -/
theorem run_command_total_and_flag_witness :
    run_command envBoom "git status" = (false, "", "boom") :=
  (run_command_total_and_flag envBoom "git status").2 "boom" rfl

/-- C9: the git-repository precondition is decided solely by the
existence of a .git entry in the current directory: when the entry is
absent the run stops with the error line, and when any entry is present
(a plain file included) the run proceeds to execute the tool probe as
its first command. -/
theorem git_check_is_bare_path_existence (w : World) :
    (w.fs ".git" = FsEntry.absent →
      main_run w = (1, [Event.print "Error: Not in a git repository"])) ∧
    (w.fs ".git" ≠ FsEntry.absent →
      (main_run w).2.head? =
        some (Event.exec whichCmd (run_command w.env whichCmd).1)) := by
  constructor
  · intro h
    unfold main_run
    simp [h]
  · intro h
    unfold main_run
    cases hw : (run_command w.env whichCmd).1
    · simp [h, hw]
    · cases hc : (clean_git_history w.env).1 <;> simp [h, hw, hc]

/-- C9 witness: with a plain file named .git in the current directory the
check passes and the probe runs. -/
theorem git_check_is_bare_path_existence_witness :
    (main_run gitFileWorld).2.head? =
      some (Event.exec whichCmd (run_command gitFileWorld.env whichCmd).1) :=
  (git_check_is_bare_path_existence gitFileWorld).2 (by decide)

/-- C10: clean_git_history returns true exactly when both the rewrite
command and the force-push command report success; the backup branch
result does not occur in the right-hand side, so it has no effect on the
return value. -/
theorem clean_result_eq_rewrite_and_push (env : String → RawOutcome) :
    (clean_git_history env).1 =
      ((run_command env filterCmd).1 && (run_command env pushCmd).1) := by
  unfold clean_git_history
  cases hf : (run_command env filterCmd).1 <;>
    cases hp : (run_command env pushCmd).1 <;>
    simp [hf, hp]
